import Mathlib

/-! Verification of the Smilei particle-boundary-condition setup
(`src/Species/PartBoundCond.cpp`, constructor `PartBoundCond::PartBoundCond`)
and of the main time-loop orchestration (`Smilei.cpp`, function `main`).

The C++ code is shallowly embedded: strings stay strings, doubles become
rationals, the fatal `ERROR(...)` macro becomes an `Except` error value
tagged with the call site, and the sequential operations of the time loop
become an explicit event trace.
-/

/-- Decidable equality on `Except` results, so that concrete runs of the
embedded constructor can be checked by `decide`. -/
instance {ε α : Type} [DecidableEq ε] [DecidableEq α] : DecidableEq (Except ε α)
  | .ok a, .ok b =>
    match decEq a b with
    | .isTrue h => .isTrue (by rw [h])
    | .isFalse h => .isFalse (by intro hc; cases hc; exact h rfl)
  | .ok _, .error _ => .isFalse (by intro hc; cases hc)
  | .error _, .ok _ => .isFalse (by intro hc; cases hc)
  | .error a, .error b =>
    match decEq a b with
    | .isTrue h => .isTrue (by rw [h])
    | .isFalse h => .isFalse (by intro hc; cases hc; exact h rfl)

namespace Smilei

/-- The stateless particle-update functions whose addresses the constructor
stores into the `bc_*` function pointers (`BoundaryConditionType.h`). -/
inductive BCFun where
  | reflect_particle
  | remove_particle
  | remove_photon
  | stop_particle
  | thermalize_particle
deriving DecidableEq

/-- One value per distinct `ERROR(...)` call site reachable in the
`PartBoundCond` constructor. `periodicConsistency i` is the
"periodic EM boundary conditions require particle BCs to be periodic"
error raised for axis `i` (line 84); `unknownBC face value` is the
"<face> boundary condition `<value>` unknown" family (lines 118, 138,
159, 178, 195, 210); `rzOnlyRemove` is the "Only Remove boundary
conditions can be applied to particles in Rz geometry" error (line 255). -/
inductive PBCError where
  | periodicConsistency (iDim : Nat)
  | unknownBC (face : String) (value : String)
  | rzOnlyRemove
deriving DecidableEq

/-- The fields of `Params` read by the `PartBoundCond` constructor. -/
structure Params where
  geometry : String
  nDim_particle : Nat
  nDim_field : Nat
  cell_length : Nat → ℚ
  n_space_global : Nat → Nat
  EM_BCs : Nat → Nat → String
  hasWindow : Bool

/-- The fields of `Species` read by the `PartBoundCond` constructor.
`boundary_conditions i s` is `species->boundary_conditions[i][s]`
(axis `i`, side `s` with `0` = min and `1` = max). -/
structure Species where
  name : String
  tracked : Bool
  mass : ℚ
  boundary_conditions : Nat → Nat → String

/-- The fields of `Patch` read by the `PartBoundCond` constructor. -/
structure Patch where
  getDomainLocalMin : Nat → ℚ
  getDomainLocalMax : Nat → ℚ
  isXmin : Bool
  isXmax : Bool
  isYmin : Bool
  isYmax : Bool
  isZmin : Bool
  isZmax : Bool

/-- The state built by the `PartBoundCond` constructor: local-domain
limits and the six boundary-function pointers (a `NULL` pointer is
`none`). The `y_*`/`z_*` limits are `0` where the C++ code leaves the
members uninitialized. -/
structure PartBoundCond where
  isRZ : Bool
  nDim_particle : Nat
  nDim_field : Nat
  x_min : ℚ
  x_max : ℚ
  y_min : ℚ
  y_max : ℚ
  z_min : ℚ
  z_max : ℚ
  bc_xmin : Option BCFun
  bc_xmax : Option BCFun
  bc_ymin : Option BCFun
  bc_ymax : Option BCFun
  bc_zmin : Option BCFun
  bc_zmax : Option BCFun
deriving DecidableEq

/-- The per-axis violation tested by the consistency loop at lines 82-83:
EM boundary periodic on a side while the species boundary on the same
side is not periodic. -/
def periodicViolationB (params : Params) (species : Species) (iDim : Nat) : Bool :=
  (params.EM_BCs iDim 0 == "periodic" && species.boundary_conditions iDim 0 != "periodic")
  || (params.EM_BCs iDim 1 == "periodic" && species.boundary_conditions iDim 1 != "periodic")

/-- The `for( iDim=0; iDim<nDim_field; iDim++ )` consistency loop
(lines 81-87): starting at axis `iDim` with `n` axes left, error out at
the first axis whose EM/species boundary conditions are inconsistent. -/
def periodicCheckFrom (params : Params) (species : Species) : Nat → Nat → Except PBCError Unit
  | _, 0 => .ok ()
  | iDim, n + 1 =>
    if periodicViolationB params species iDim then
      .error (.periodicConsistency iDim)
    else
      periodicCheckFrom params species (iDim + 1) n

/-- The repeated x/y face-dispatch block (lines 102-119 and its Xmax,
Ymin, Ymax copies): select the boundary function for one face from the
configured string; install it only when the patch face is on the global
boundary (`isB`). `rm` is the mass-selected `remove` function pointer. -/
def bcDispatchXY (face : String) (value : String) (isB : Bool) (rm : BCFun) :
    Except PBCError (Option BCFun) :=
  if value == "reflective" then
    .ok (if isB then some .reflect_particle else none)
  else if value == "remove" then
    .ok (if isB then some rm else none)
  else if value == "stop" then
    .ok (if isB then some .stop_particle else none)
  else if value == "thermalize" then
    .ok (if isB then some .thermalize_particle else none)
  else if value == "periodic" then
    .ok none
  else
    .error (.unknownBC face value)

/-- The z face-dispatch block (lines 183-196 and its Zmax copy): same as
the x/y block but with no `thermalize` branch. -/
def bcDispatchZ (face : String) (value : String) (isB : Bool) (rm : BCFun) :
    Except PBCError (Option BCFun) :=
  if value == "reflective" then
    .ok (if isB then some .reflect_particle else none)
  else if value == "remove" then
    .ok (if isB then some rm else none)
  else if value == "stop" then
    .ok (if isB then some .stop_particle else none)
  else if value == "periodic" then
    .ok none
  else
    .error (.unknownBC face value)

/-- The axisymmetric Ymax block (lines 243-256): only `"remove"` is
accepted, and it installs `&remove_particle` directly (not the
mass-selected pointer). -/
def rzYmaxDispatch (value : String) (isYmax : Bool) : Except PBCError (Option BCFun) :=
  if value == "remove" then
    .ok (if isYmax then some .remove_particle else none)
  else
    .error .rzOnlyRemove

/-- The y/z part of the dispatch (lines 142-257): the non-axisymmetric
branch handles Ymin/Ymax and, in 3D, Zmin/Zmax; the axisymmetric branch
handles only Ymax. Returns `(bc_ymin, bc_ymax, bc_zmin, bc_zmax)`. -/
def yzDispatch (params : Params) (species : Species) (patch : Patch) (rm : BCFun)
    (isRZ : Bool) :
    Except PBCError (Option BCFun × Option BCFun × Option BCFun × Option BCFun) :=
  if 1 < params.nDim_particle ∧ isRZ = false then
    match bcDispatchXY ("Ymin") (species.boundary_conditions 1 0) patch.isYmin rm with
    | .error e => .error e
    | .ok bc_ymin =>
      match bcDispatchXY ("Ymax") (species.boundary_conditions 1 1) patch.isYmax rm with
      | .error e => .error e
      | .ok bc_ymax =>
        if 2 < params.nDim_particle then
          match bcDispatchZ ("Zmin") (species.boundary_conditions 2 0) patch.isZmin rm with
          | .error e => .error e
          | .ok bc_zmin =>
            match bcDispatchZ ("Zmax") (species.boundary_conditions 2 1) patch.isZmax rm with
            | .error e => .error e
            | .ok bc_zmax => .ok (bc_ymin, bc_ymax, bc_zmin, bc_zmax)
        else
          .ok (bc_ymin, bc_ymax, none, none)
  else if isRZ = true then
    match rzYmaxDispatch (species.boundary_conditions 1 1) patch.isYmax with
    | .error e => .error e
    | .ok bc_ymax => .ok (none, bc_ymax, none, none)
  else
    .ok (none, none, none, none)

/-- The mass-based selection of the `remove` function pointer
(lines 94-99): the photon variant for a zero-mass species, the particle
variant otherwise. -/
def removeVariant (species : Species) : BCFun :=
  if species.mass = 0 then .remove_photon else .remove_particle

/-- The part of the constructor after the EM/species consistency check:
local-domain limits (lines 40-74), the mass-based selection of the
`remove` function (lines 94-99), and the face dispatch (lines 101-257). -/
def partBoundCondDispatch (params : Params) (species : Species) (patch : Patch) :
    Except PBCError PartBoundCond :=
  let isRZ : Bool := params.geometry == "3drz"
  let x_max_global : ℚ := params.cell_length 0 * (params.n_space_global 0 : ℚ)
  let y_max_global : ℚ := params.cell_length 1 * (params.n_space_global 1 : ℚ)
  let z_max_global : ℚ := params.cell_length 2 * (params.n_space_global 2 : ℚ)
  let x_min : ℚ :=
    if params.EM_BCs 0 0 == "periodic" || params.hasWindow then
      patch.getDomainLocalMin 0
    else
      max 0 (patch.getDomainLocalMin 0)
  let x_max : ℚ :=
    if params.EM_BCs 0 0 == "periodic" || params.hasWindow then
      patch.getDomainLocalMax 0
    else
      min x_max_global (patch.getDomainLocalMax 0)
  let y_min : ℚ :=
    if 1 < params.nDim_particle then
      if params.EM_BCs 1 0 == "periodic" then patch.getDomainLocalMin 1
      else max 0 (patch.getDomainLocalMin 1)
    else 0
  let y_max : ℚ :=
    if 1 < params.nDim_particle then
      if params.EM_BCs 1 0 == "periodic" then patch.getDomainLocalMax 1
      else min y_max_global (patch.getDomainLocalMax 1)
    else 0
  let z_min : ℚ :=
    if 1 < params.nDim_particle ∧ 2 < params.nDim_particle ∧ isRZ = false then
      if params.EM_BCs 2 0 == "periodic" then patch.getDomainLocalMin 2
      else max 0 (patch.getDomainLocalMin 2)
    else 0
  let z_max : ℚ :=
    if 1 < params.nDim_particle ∧ 2 < params.nDim_particle ∧ isRZ = false then
      if params.EM_BCs 2 0 == "periodic" then patch.getDomainLocalMax 2
      else min z_max_global (patch.getDomainLocalMax 2)
    else 0
  let rm : BCFun := removeVariant species
  match bcDispatchXY ("Xmin") (species.boundary_conditions 0 0) patch.isXmin rm with
  | .error e => .error e
  | .ok bc_xmin =>
    match bcDispatchXY ("Xmax") (species.boundary_conditions 0 1) patch.isXmax rm with
    | .error e => .error e
    | .ok bc_xmax =>
      match yzDispatch params species patch rm isRZ with
      | .error e => .error e
      | .ok yz =>
        .ok { isRZ := isRZ
              nDim_particle := params.nDim_particle
              nDim_field := params.nDim_field
              x_min := x_min, x_max := x_max
              y_min := y_min, y_max := y_max
              z_min := z_min, z_max := z_max
              bc_xmin := bc_xmin, bc_xmax := bc_xmax
              bc_ymin := yz.1, bc_ymax := yz.2.1
              bc_zmin := yz.2.2.1, bc_zmax := yz.2.2.2 }

/-- The constructor `PartBoundCond::PartBoundCond` (lines 17-260): the
EM/species periodic-consistency check (run only for non-tracked species),
then limits and face dispatch. The first `ERROR` reached aborts. -/
def mkPartBoundCond (params : Params) (species : Species) (patch : Patch) :
    Except PBCError PartBoundCond :=
  match (if species.tracked = false then
           periodicCheckFrom params species 0 params.nDim_field
         else .ok ()) with
  | .error e => .error e
  | .ok _ => partBoundCondDispatch params species patch

/-- Whether construction succeeded (no fatal `ERROR`). -/
def pbcOk : Except PBCError PartBoundCond → Bool
  | .ok _ => true
  | .error _ => false

/-- Observe one field of a successfully constructed `PartBoundCond`. -/
def pbcProj {α : Type} (f : PartBoundCond → α) :
    Except PBCError PartBoundCond → Option α
  | .ok st => some (f st)
  | .error _ => none

/-- Whether one face dispatch succeeded. -/
def dispatchOk : Except PBCError (Option BCFun) → Bool
  | .ok _ => true
  | .error _ => false

theorem pbcOk_eq_true {r : Except PBCError PartBoundCond} :
    pbcOk r = true ↔ ∃ st, r = .ok st := by
  cases r <;> simp [pbcOk]

theorem bcDispatchXY_ok_none {f v : String} {b : Bool} {rm : BCFun} {o : Option BCFun}
    (h : bcDispatchXY f v b rm = .ok o) :
    (b = false → o = none) ∧ (v = "periodic" → o = none) := by
  unfold bcDispatchXY at h
  repeat' split at h
  all_goals constructor <;> intro hb <;> simp_all

theorem bcDispatchZ_ok_none {f v : String} {b : Bool} {rm : BCFun} {o : Option BCFun}
    (h : bcDispatchZ f v b rm = .ok o) :
    (b = false → o = none) ∧ (v = "periodic" → o = none) := by
  unfold bcDispatchZ at h
  repeat' split at h
  all_goals constructor <;> intro hb <;> simp_all

theorem bcDispatchXY_remove {f : String} {b : Bool} {rm : BCFun}
    (hv : v = "remove") :
    bcDispatchXY f v b rm = .ok (if b = true then some rm else none) := by
  subst hv
  simp [bcDispatchXY]

theorem bcDispatchZ_remove {f : String} {b : Bool} {rm : BCFun}
    (hv : v = "remove") :
    bcDispatchZ f v b rm = .ok (if b = true then some rm else none) := by
  subst hv
  simp [bcDispatchZ]

theorem rzYmaxDispatch_ok {v : String} {b : Bool} {o : Option BCFun}
    (h : rzYmaxDispatch v b = .ok o) :
    v = "remove" ∧ o = (if b = true then some BCFun.remove_particle else none) := by
  unfold rzYmaxDispatch at h
  split at h <;> simp_all

theorem bcDispatchXY_no_pc {f v : String} {b : Bool} {rm : BCFun} {j : Nat}
    (h : bcDispatchXY f v b rm = .error (.periodicConsistency j)) : False := by
  unfold bcDispatchXY at h
  repeat' split at h
  all_goals simp_all

theorem bcDispatchZ_no_pc {f v : String} {b : Bool} {rm : BCFun} {j : Nat}
    (h : bcDispatchZ f v b rm = .error (.periodicConsistency j)) : False := by
  unfold bcDispatchZ at h
  repeat' split at h
  all_goals simp_all

theorem rzYmaxDispatch_no_pc {v : String} {b : Bool} {j : Nat}
    (h : rzYmaxDispatch v b = .error (.periodicConsistency j)) : False := by
  unfold rzYmaxDispatch at h
  split at h <;> simp_all

theorem yzDispatch_no_pc {p : Params} {s : Species} {pa : Patch} {rm : BCFun}
    {isRZ : Bool} {j : Nat}
    (h : yzDispatch p s pa rm isRZ = .error (.periodicConsistency j)) : False := by
  unfold yzDispatch at h
  repeat' split at h
  all_goals
    try (simp only [Except.error.injEq] at h; subst h)
  all_goals
    first
      | simp at h
      | exact bcDispatchXY_no_pc ‹_›
      | exact bcDispatchZ_no_pc ‹_›
      | exact rzYmaxDispatch_no_pc ‹_›

theorem partBoundCondDispatch_no_pc {p : Params} {s : Species} {pa : Patch} {j : Nat}
    (h : partBoundCondDispatch p s pa = .error (.periodicConsistency j)) : False := by
  simp only [partBoundCondDispatch] at h
  repeat' split at h
  all_goals
    try (simp only [Except.error.injEq] at h; subst h)
  all_goals
    first
      | simp at h
      | exact bcDispatchXY_no_pc ‹_›
      | exact yzDispatch_no_pc ‹_›

theorem mkPartBoundCond_ok_inv {p : Params} {s : Species} {pa : Patch}
    {st : PartBoundCond} (h : mkPartBoundCond p s pa = .ok st) :
    partBoundCondDispatch p s pa = .ok st := by
  unfold mkPartBoundCond at h
  split at h
  · exact absurd h (by simp)
  · exact h

theorem mkPartBoundCond_check_error {p : Params} {s : Species} {pa : Patch}
    {e : PBCError} (ht : s.tracked = false)
    (hc : periodicCheckFrom p s 0 p.nDim_field = .error e) :
    mkPartBoundCond p s pa = .error e := by
  unfold mkPartBoundCond
  rw [if_pos ht, hc]

theorem mkPartBoundCond_pc_inv {p : Params} {s : Species} {pa : Patch} {j : Nat}
    (h : mkPartBoundCond p s pa = .error (.periodicConsistency j)) :
    s.tracked = false ∧ periodicCheckFrom p s 0 p.nDim_field
        = .error (.periodicConsistency j) := by
  unfold mkPartBoundCond at h
  split at h
  · rename_i e' he
    simp only [Except.error.injEq] at h
    subst h
    split at he
    · exact ⟨by assumption, he⟩
    · exact absurd he (by simp)
  · exact absurd h (fun hc => partBoundCondDispatch_no_pc hc)

theorem periodicCheckFrom_ok {p : Params} {s : Species} (i n : Nat)
    (h : ∀ k, k < n → periodicViolationB p s (i + k) = false) :
    periodicCheckFrom p s i n = .ok () := by
  induction n generalizing i with
  | zero => rfl
  | succ m ih =>
    have h0 := h 0 (Nat.succ_pos m)
    rw [Nat.add_zero] at h0
    unfold periodicCheckFrom
    rw [if_neg (by simp [h0])]
    exact ih (i + 1) (fun k hk => by
      have := h (k + 1) (by omega)
      rw [show i + (k + 1) = i + 1 + k by omega] at this
      exact this)

theorem periodicCheckFrom_error {p : Params} {s : Species} (i n k : Nat)
    (hk : k < n) (hv : periodicViolationB p s (i + k) = true) :
    ∃ j, periodicCheckFrom p s i n = .error (.periodicConsistency j) := by
  induction n generalizing i k with
  | zero => omega
  | succ m ih =>
    unfold periodicCheckFrom
    by_cases h0 : periodicViolationB p s i = true
    · exact ⟨i, by rw [if_pos h0]⟩
    · rw [if_neg h0]
      cases k with
      | zero =>
        rw [Nat.add_zero] at hv
        exact absurd hv h0
      | succ k' =>
        exact ih (i + 1) k' (by omega)
          (by rw [show i + 1 + k' = i + (k' + 1) by omega]; exact hv)

theorem partBoundCondDispatch_ok_inv {p : Params} {s : Species} {pa : Patch}
    {st : PartBoundCond} (h : partBoundCondDispatch p s pa = .ok st) :
    st.isRZ = (p.geometry == "3drz")
    ∧ st.x_min = (if p.EM_BCs 0 0 == "periodic" || p.hasWindow
        then pa.getDomainLocalMin 0 else max 0 (pa.getDomainLocalMin 0))
    ∧ st.x_max = (if p.EM_BCs 0 0 == "periodic" || p.hasWindow
        then pa.getDomainLocalMax 0
        else min (p.cell_length 0 * (p.n_space_global 0 : ℚ)) (pa.getDomainLocalMax 0))
    ∧ bcDispatchXY ("Xmin") (s.boundary_conditions 0 0) pa.isXmin (removeVariant s)
        = .ok st.bc_xmin
    ∧ bcDispatchXY ("Xmax") (s.boundary_conditions 0 1) pa.isXmax (removeVariant s)
        = .ok st.bc_xmax
    ∧ yzDispatch p s pa (removeVariant s) (p.geometry == "3drz")
        = .ok (st.bc_ymin, st.bc_ymax, st.bc_zmin, st.bc_zmax) := by
  simp only [partBoundCondDispatch] at h
  split at h
  · exact absurd h (by simp)
  · split at h
    · exact absurd h (by simp)
    · split at h
      · exact absurd h (by simp)
      · rename_i yz hyz
        simp only [Except.ok.injEq] at h
        subst h
        exact ⟨rfl, rfl, rfl, by assumption, by assumption, hyz⟩

theorem yzDispatch_rz_ok {p : Params} {s : Species} {pa : Patch} {rm : BCFun}
    {a b c d : Option BCFun}
    (h : yzDispatch p s pa rm true = .ok (a, b, c, d)) :
    s.boundary_conditions 1 1 = "remove" ∧ a = none
    ∧ b = (if pa.isYmax = true then some BCFun.remove_particle else none)
    ∧ c = none ∧ d = none := by
  unfold yzDispatch at h
  rw [if_neg (by simp)] at h
  rw [if_pos rfl] at h
  split at h
  · exact absurd h (by simp)
  · rename_i o ho
    simp only [Except.ok.injEq, Prod.mk.injEq] at h
    obtain ⟨rfl, rfl, rfl, rfl⟩ := h
    obtain ⟨hv, ho'⟩ := rzYmaxDispatch_ok ho
    exact ⟨hv, rfl, ho', rfl, rfl⟩

theorem yzDispatch_nonrz_ok {p : Params} {s : Species} {pa : Patch} {rm : BCFun}
    {a b c d : Option BCFun} (hn : 1 < p.nDim_particle)
    (h : yzDispatch p s pa rm false = .ok (a, b, c, d)) :
    bcDispatchXY ("Ymin") (s.boundary_conditions 1 0) pa.isYmin rm = .ok a
    ∧ bcDispatchXY ("Ymax") (s.boundary_conditions 1 1) pa.isYmax rm = .ok b
    ∧ (2 < p.nDim_particle →
        bcDispatchZ ("Zmin") (s.boundary_conditions 2 0) pa.isZmin rm = .ok c
        ∧ bcDispatchZ ("Zmax") (s.boundary_conditions 2 1) pa.isZmax rm = .ok d)
    ∧ (¬ 2 < p.nDim_particle → c = none ∧ d = none) := by
  unfold yzDispatch at h
  rw [if_pos ⟨hn, rfl⟩] at h
  split at h
  · exact absurd h (by simp)
  · rename_i y1 hy1
    split at h
    · exact absurd h (by simp)
    · rename_i y2 hy2
      split at h
      · rename_i h2
        split at h
        · exact absurd h (by simp)
        · rename_i z1 hz1
          split at h
          · exact absurd h (by simp)
          · rename_i z2 hz2
            simp only [Except.ok.injEq, Prod.mk.injEq] at h
            obtain ⟨rfl, rfl, rfl, rfl⟩ := h
            exact ⟨hy1, hy2, fun _ => ⟨hz1, hz2⟩, fun hc => absurd h2 hc⟩
      · rename_i h2
        simp only [Except.ok.injEq, Prod.mk.injEq] at h
        obtain ⟨rfl, rfl, rfl, rfl⟩ := h
        exact ⟨hy1, hy2, fun hc => absurd hc h2, fun _ => ⟨rfl, rfl⟩⟩

theorem yzDispatch_ok_none {p : Params} {s : Species} {pa : Patch} {rm : BCFun}
    {isRZ : Bool} {a b c d : Option BCFun}
    (h : yzDispatch p s pa rm isRZ = .ok (a, b, c, d)) :
    (pa.isYmin = false → a = none)
    ∧ (s.boundary_conditions 1 0 = "periodic" → a = none)
    ∧ (pa.isYmax = false → b = none)
    ∧ (s.boundary_conditions 1 1 = "periodic" → b = none)
    ∧ (pa.isZmin = false → c = none)
    ∧ (s.boundary_conditions 2 0 = "periodic" → c = none)
    ∧ (pa.isZmax = false → d = none)
    ∧ (s.boundary_conditions 2 1 = "periodic" → d = none) := by
  unfold yzDispatch at h
  split at h
  · split at h
    · exact absurd h (by simp)
    · rename_i y1 hy1
      split at h
      · exact absurd h (by simp)
      · rename_i y2 hy2
        split at h
        · split at h
          · exact absurd h (by simp)
          · rename_i z1 hz1
            split at h
            · exact absurd h (by simp)
            · rename_i z2 hz2
              simp only [Except.ok.injEq, Prod.mk.injEq] at h
              obtain ⟨rfl, rfl, rfl, rfl⟩ := h
              exact ⟨(bcDispatchXY_ok_none hy1).1, (bcDispatchXY_ok_none hy1).2,
                (bcDispatchXY_ok_none hy2).1, (bcDispatchXY_ok_none hy2).2,
                (bcDispatchZ_ok_none hz1).1, (bcDispatchZ_ok_none hz1).2,
                (bcDispatchZ_ok_none hz2).1, (bcDispatchZ_ok_none hz2).2⟩
        · simp only [Except.ok.injEq, Prod.mk.injEq] at h
          obtain ⟨rfl, rfl, rfl, rfl⟩ := h
          exact ⟨(bcDispatchXY_ok_none hy1).1, (bcDispatchXY_ok_none hy1).2,
            (bcDispatchXY_ok_none hy2).1, (bcDispatchXY_ok_none hy2).2,
            fun _ => rfl, fun _ => rfl, fun _ => rfl, fun _ => rfl⟩
  · split at h
    · split at h
      · exact absurd h (by simp)
      · rename_i o ho
        simp only [Except.ok.injEq, Prod.mk.injEq] at h
        obtain ⟨rfl, rfl, rfl, rfl⟩ := h
        obtain ⟨hv, ho'⟩ := rzYmaxDispatch_ok ho
        refine ⟨fun _ => rfl, fun _ => rfl, ?_, ?_, fun _ => rfl, fun _ => rfl,
          fun _ => rfl, fun _ => rfl⟩
        · intro hb
          rw [ho', if_neg (by simp [hb])]
        · intro hper
          rw [hper] at hv
          exact absurd hv (by decide)
    · simp only [Except.ok.injEq, Prod.mk.injEq] at h
      obtain ⟨rfl, rfl, rfl, rfl⟩ := h
      exact ⟨fun _ => rfl, fun _ => rfl, fun _ => rfl, fun _ => rfl,
        fun _ => rfl, fun _ => rfl, fun _ => rfl, fun _ => rfl⟩

theorem periodicCheckFrom_error_inv {p : Params} {s : Species} {i n : Nat}
    {e : PBCError} (h : periodicCheckFrom p s i n = .error e) :
    ∃ j, e = .periodicConsistency j ∧ periodicViolationB p s j = true
      ∧ i ≤ j ∧ j < i + n := by
  induction n generalizing i with
  | zero => exact absurd h (by simp [periodicCheckFrom])
  | succ m ih =>
    unfold periodicCheckFrom at h
    split at h
    · rename_i hvi
      simp only [Except.error.injEq] at h
      exact ⟨i, h.symm, hvi, Nat.le_refl i, by omega⟩
    · obtain ⟨j, hj, hvj, hle, hlt⟩ := ih h
      exact ⟨j, hj, hvj, by omega, by omega⟩

/-- The per-axis EM/species inconsistency of lines 82-83, stated with
plain string equalities: the EM boundary on a side of axis `iDim` is
periodic while the species boundary on the same side of that axis is not. -/
def periodicViolation (p : Params) (s : Species) (iDim : Nat) : Prop :=
  (p.EM_BCs iDim 0 = "periodic" ∧ s.boundary_conditions iDim 0 ≠ "periodic")
  ∨ (p.EM_BCs iDim 1 = "periodic" ∧ s.boundary_conditions iDim 1 ≠ "periodic")

theorem periodicViolation_iff {p : Params} {s : Species} {iDim : Nat} :
    periodicViolation p s iDim ↔ periodicViolationB p s iDim = true := by
  simp [periodicViolation, periodicViolationB, bne_iff_ne]

/-- A patch lying on every global boundary face, local domain [0, 4]. -/
def paAll : Patch :=
  ⟨fun _ => 0, fun _ => 4, true, true, true, true, true, true⟩

/-- A patch on no global boundary face, local domain [0, 4]. -/
def paInner : Patch :=
  ⟨fun _ => 0, fun _ => 4, false, false, false, false, false, false⟩

/-- One-dimensional parameters, absorbing EM boundaries, no moving window. -/
def prmAbs1d : Params :=
  ⟨"1d3v", 1, 1, fun _ => 1, fun _ => 4, fun _ _ => "silver-muller", false⟩

/-- One-dimensional parameters, absorbing EM boundaries, moving window enabled. -/
def prmWin1d : Params :=
  ⟨"1d3v", 1, 1, fun _ => 1, fun _ => 4, fun _ _ => "silver-muller", true⟩

/-- One-dimensional parameters, periodic EM boundaries. -/
def prmPer1d : Params :=
  ⟨"1d3v", 1, 1, fun _ => 1, fun _ => 4, fun _ _ => "periodic", false⟩

/-- Three-dimensional parameters, absorbing EM boundaries. -/
def prmAbs3d : Params :=
  ⟨"3d3v", 3, 3, fun _ => 1, fun _ => 4, fun _ _ => "silver-muller", false⟩

/-- Axisymmetric parameters (`3drz`), absorbing EM boundaries. -/
def prmRZ : Params :=
  ⟨"3drz", 3, 2, fun _ => 1, fun _ => 4, fun _ _ => "silver-muller", false⟩

/-- A massive untracked species with `remove` everywhere. -/
def spRemove : Species := ⟨"eon", false, 1, fun _ _ => "remove"⟩

/-- A massive untracked species with `reflective` everywhere. -/
def spReflect : Species := ⟨"eon", false, 1, fun _ _ => "reflective"⟩

/-- A zero-mass untracked species with `remove` everywhere. -/
def spPhotonRemove : Species := ⟨"photon", false, 0, fun _ _ => "remove"⟩

/-- A massive untracked species asking for `thermalize` on the z axis. -/
def spThermZ : Species :=
  ⟨"eon", false, 1, fun i _ => if i = 2 then ("thermalize") else ("reflective")⟩

/-- Three-dimensional parameters with periodic EM boundaries. -/
def prmPer3d : Params :=
  ⟨"3d3v", 3, 3, fun _ => 1, fun _ => 4, fun _ _ => "periodic", false⟩

/-- A massive tracked species with `reflective` everywhere (tracked, so
the EM/species consistency check is skipped). -/
def spReflectTracked : Species := ⟨"eon", true, 1, fun _ _ => "reflective"⟩

/-- A zero-mass tracked species with `remove` everywhere. -/
def spPhotonTracked : Species := ⟨"photon", true, 0, fun _ _ => "remove"⟩

/-- C1: for an untracked species, a periodic EM boundary on a side of an
axis below `nDim_field` whose species boundary is not periodic makes the
constructor abort with the periodic-consistency error; if no axis has
such an inconsistency, that error is never raised. -/
theorem C1_em_periodic_requires_species_periodic
    (p : Params) (s : Species) (pa : Patch) (ht : s.tracked = false) :
    ((∃ i, i < p.nDim_field ∧ periodicViolation p s i) →
      ∃ j, mkPartBoundCond p s pa = .error (.periodicConsistency j))
    ∧ ((∀ i, i < p.nDim_field → ¬ periodicViolation p s i) →
      ∀ j, mkPartBoundCond p s pa ≠ .error (.periodicConsistency j)) := by
  constructor
  · rintro ⟨i, hi, hv⟩
    rw [periodicViolation_iff] at hv
    obtain ⟨j, hj⟩ := periodicCheckFrom_error 0 p.nDim_field i hi (by simpa using hv)
    exact ⟨j, mkPartBoundCond_check_error ht hj⟩
  · intro hall j hc
    obtain ⟨_, hcheck⟩ := mkPartBoundCond_pc_inv hc
    obtain ⟨j', _, hvj, _, hlt⟩ := periodicCheckFrom_error_inv hcheck
    rw [Nat.zero_add] at hlt
    exact hall j' hlt (periodicViolation_iff.mpr hvj)

/-- C1 witness: periodic EM with a `remove` species boundary in 1D is
rejected with the periodic-consistency error. -/
theorem C1_witness :
    ∃ j, mkPartBoundCond prmPer1d spRemove paAll
      = .error (.periodicConsistency j) :=
  (C1_em_periodic_requires_species_periodic prmPer1d spRemove paAll rfl).1
    ⟨0, by decide, Or.inl ⟨rfl, by decide⟩⟩

/-- C2: in `3drz` geometry the constructor succeeds only when the
species boundary at the outer radial (Ymax) face is `remove` — any other
value is a fatal setup error — and a successful construction installs no
boundary function at the inner radius (`bc_ymin` stays NULL). -/
theorem C2_rz_accepts_only_remove_at_ymax
    (p : Params) (s : Species) (pa : Patch) (hg : p.geometry = "3drz") :
    (∀ st, mkPartBoundCond p s pa = .ok st →
      s.boundary_conditions 1 1 = "remove" ∧ st.bc_ymin = none)
    ∧ (s.boundary_conditions 1 1 ≠ "remove" →
      pbcOk (mkPartBoundCond p s pa) = false) := by
  have hmain : ∀ st, mkPartBoundCond p s pa = .ok st →
      s.boundary_conditions 1 1 = "remove" ∧ st.bc_ymin = none := by
    intro st hok
    have hinv := partBoundCondDispatch_ok_inv (mkPartBoundCond_ok_inv hok)
    have hyz := hinv.2.2.2.2.2
    rw [show (p.geometry == "3drz") = true by simp [hg]] at hyz
    obtain ⟨hv, ha, _, _, _⟩ := yzDispatch_rz_ok hyz
    exact ⟨hv, ha⟩
  refine ⟨hmain, fun hne => ?_⟩
  cases hok : mkPartBoundCond p s pa with
  | error e => simp [pbcOk]
  | ok st => exact absurd (hmain st hok).1 hne

/-- C2 witness: `reflective` at the outer radial face in `3drz` makes
setup fail. -/
theorem C2_witness : pbcOk (mkPartBoundCond prmRZ spReflect paAll) = false :=
  (C2_rz_accepts_only_remove_at_ymax prmRZ spReflect paAll rfl).2 (by decide)

/-- C3 counterexample: a zero-mass (photon) species with `remove` at the
outer radial face in `3drz` geometry gets the massive-particle variant
`remove_particle` installed at Ymax, not `remove_photon`, refuting the
claim that the photon variant is used on that face whenever mass is 0. -/
theorem C3_counterexample :
    spPhotonRemove.mass = 0 ∧ paAll.isYmax = true
    ∧ pbcProj (fun st => st.bc_ymax) (mkPartBoundCond prmRZ spPhotonRemove paAll)
      = some (some BCFun.remove_particle) :=
  ⟨rfl, rfl, by decide⟩

/-- C3 amended: on the x faces (always), and on the y and z faces outside
`3drz` geometry, a face configured `remove` gets the mass-selected variant
(`remove_photon` iff the mass is zero) when the patch face is a global
boundary; but the outer radial face in `3drz` geometry always gets
`remove_particle`, regardless of the species mass. -/
theorem C3_amended_remove_variant (p : Params) (s : Species) (pa : Patch)
    (st : PartBoundCond) (h : mkPartBoundCond p s pa = .ok st) :
    (s.boundary_conditions 0 0 = "remove" →
      st.bc_xmin = (if pa.isXmin = true then some (removeVariant s) else none))
    ∧ (s.boundary_conditions 0 1 = "remove" →
      st.bc_xmax = (if pa.isXmax = true then some (removeVariant s) else none))
    ∧ (p.geometry ≠ "3drz" → 1 < p.nDim_particle →
        (s.boundary_conditions 1 0 = "remove" →
          st.bc_ymin = (if pa.isYmin = true then some (removeVariant s) else none))
        ∧ (s.boundary_conditions 1 1 = "remove" →
          st.bc_ymax = (if pa.isYmax = true then some (removeVariant s) else none))
        ∧ (2 < p.nDim_particle →
            (s.boundary_conditions 2 0 = "remove" →
              st.bc_zmin = (if pa.isZmin = true then some (removeVariant s) else none))
            ∧ (s.boundary_conditions 2 1 = "remove" →
              st.bc_zmax = (if pa.isZmax = true then some (removeVariant s) else none))))
    ∧ (p.geometry = "3drz" →
        st.bc_ymax = (if pa.isYmax = true then some BCFun.remove_particle else none)) := by
  obtain ⟨_, _, _, hx0, hx1, hyz⟩ :=
    partBoundCondDispatch_ok_inv (mkPartBoundCond_ok_inv h)
  refine ⟨?_, ?_, ?_, ?_⟩
  · intro hv
    rw [bcDispatchXY_remove hv] at hx0
    simp only [Except.ok.injEq] at hx0
    exact hx0.symm
  · intro hv
    rw [bcDispatchXY_remove hv] at hx1
    simp only [Except.ok.injEq] at hx1
    exact hx1.symm
  · intro hg hn
    rw [show (p.geometry == "3drz") = false by simp [hg]] at hyz
    obtain ⟨hy0, hy1, hz, _⟩ := yzDispatch_nonrz_ok hn hyz
    refine ⟨?_, ?_, fun h2 => ?_⟩
    · intro hv
      rw [bcDispatchXY_remove hv] at hy0
      simp only [Except.ok.injEq] at hy0
      exact hy0.symm
    · intro hv
      rw [bcDispatchXY_remove hv] at hy1
      simp only [Except.ok.injEq] at hy1
      exact hy1.symm
    · obtain ⟨hz0, hz1⟩ := hz h2
      constructor
      · intro hv
        rw [bcDispatchZ_remove hv] at hz0
        simp only [Except.ok.injEq] at hz0
        exact hz0.symm
      · intro hv
        rw [bcDispatchZ_remove hv] at hz1
        simp only [Except.ok.injEq] at hz1
        exact hz1.symm
  · intro hg
    rw [show (p.geometry == "3drz") = true by simp [hg]] at hyz
    exact (yzDispatch_rz_ok hyz).2.2.1

/-- The state built for a 1D photon species with `remove` on both x faces
under absorbing EM boundaries. -/
def stC3 : PartBoundCond :=
  ⟨false, 1, 1, 0, 4, 0, 0, 0, 0,
   some .remove_photon, some .remove_photon, none, none, none, none⟩

/-- C3 amended witness: for the concrete 1D photon species, Xmin gets the
photon variant. -/
theorem C3_amended_witness :
    stC3.bc_xmin
      = (if paAll.isXmin = true then some (removeVariant spPhotonTracked) else none) :=
  (C3_amended_remove_variant prmPer1d spPhotonTracked paAll stC3 (by decide)).1 rfl

/-- C4 counterexample: in 3D, `thermalize` on the z axis is NOT
recognized — the constructor aborts with the unknown-boundary-condition
error — refuting the claim that all five values are accepted on axis 2. -/
theorem C4_counterexample :
    prmAbs3d.nDim_particle = 3
    ∧ spThermZ.boundary_conditions 2 0 = "thermalize"
    ∧ mkPartBoundCond prmAbs3d spThermZ paAll
      = .error (.unknownBC ("Zmin") ("thermalize")) :=
  ⟨rfl, rfl, by decide⟩

/-- C4 amended: the five values `reflective`, `remove`, `stop`,
`thermalize`, `periodic` are all recognized by the x- and y-face dispatch;
the z-face dispatch recognizes only `reflective`, `remove`, `stop`,
`periodic`, and `thermalize` there raises the unknown-boundary-condition
fatal error, so a 3D non-axisymmetric configuration with `thermalize` on
the z axis never constructs successfully. -/
theorem C4_amended_z_axis_lacks_thermalize :
    (∀ (f v : String) (b : Bool) (rm : BCFun),
      (v = "reflective" ∨ v = "remove" ∨ v = "stop" ∨ v = "thermalize" ∨ v = "periodic") →
      dispatchOk (bcDispatchXY f v b rm) = true)
    ∧ (∀ (f v : String) (b : Bool) (rm : BCFun),
      (v = "reflective" ∨ v = "remove" ∨ v = "stop" ∨ v = "periodic") →
      dispatchOk (bcDispatchZ f v b rm) = true)
    ∧ (∀ (f : String) (b : Bool) (rm : BCFun),
      bcDispatchZ f ("thermalize") b rm = .error (.unknownBC f ("thermalize")))
    ∧ (∀ (p : Params) (s : Species) (pa : Patch), p.geometry ≠ "3drz" →
      2 < p.nDim_particle → s.boundary_conditions 2 0 = "thermalize" →
      pbcOk (mkPartBoundCond p s pa) = false) := by
  refine ⟨?_, ?_, ?_, ?_⟩
  · intro f v b rm hv
    rcases hv with rfl | rfl | rfl | rfl | rfl <;> simp [bcDispatchXY, dispatchOk]
  · intro f v b rm hv
    rcases hv with rfl | rfl | rfl | rfl <;> simp [bcDispatchZ, dispatchOk]
  · intro f b rm
    simp [bcDispatchZ]
  · intro p s pa hg hn hv
    cases hok : mkPartBoundCond p s pa with
    | error e => simp [pbcOk]
    | ok st =>
      exfalso
      have hinv := partBoundCondDispatch_ok_inv (mkPartBoundCond_ok_inv hok)
      have hyz := hinv.2.2.2.2.2
      rw [show (p.geometry == "3drz") = false by simp [hg]] at hyz
      obtain ⟨_, _, hz, _⟩ := yzDispatch_nonrz_ok (by omega) hyz
      have hz0 := (hz hn).1
      rw [hv] at hz0
      simp [bcDispatchZ] at hz0

/-- C4 amended witness: the concrete 3D configuration with `thermalize`
on the z axis fails setup. -/
theorem C4_amended_witness :
    pbcOk (mkPartBoundCond prmAbs3d spThermZ paAll) = false :=
  C4_amended_z_axis_lacks_thermalize.2.2.2 prmAbs3d spThermZ paAll
    (by decide) (by decide) rfl

/-- C6: a successful construction leaves a face's boundary-function
pointer NULL whenever the patch face is not on the global simulation
boundary, and likewise whenever that face is configured `periodic`. -/
theorem C6_bc_installed_only_on_global_boundary
    (p : Params) (s : Species) (pa : Patch) (st : PartBoundCond)
    (h : mkPartBoundCond p s pa = .ok st) :
    (pa.isXmin = false → st.bc_xmin = none)
    ∧ (s.boundary_conditions 0 0 = "periodic" → st.bc_xmin = none)
    ∧ (pa.isXmax = false → st.bc_xmax = none)
    ∧ (s.boundary_conditions 0 1 = "periodic" → st.bc_xmax = none)
    ∧ (pa.isYmin = false → st.bc_ymin = none)
    ∧ (s.boundary_conditions 1 0 = "periodic" → st.bc_ymin = none)
    ∧ (pa.isYmax = false → st.bc_ymax = none)
    ∧ (s.boundary_conditions 1 1 = "periodic" → st.bc_ymax = none)
    ∧ (pa.isZmin = false → st.bc_zmin = none)
    ∧ (s.boundary_conditions 2 0 = "periodic" → st.bc_zmin = none)
    ∧ (pa.isZmax = false → st.bc_zmax = none)
    ∧ (s.boundary_conditions 2 1 = "periodic" → st.bc_zmax = none) := by
  obtain ⟨_, _, _, hx0, hx1, hyz⟩ :=
    partBoundCondDispatch_ok_inv (mkPartBoundCond_ok_inv h)
  obtain ⟨ha1, ha2⟩ := bcDispatchXY_ok_none hx0
  obtain ⟨hb1, hb2⟩ := bcDispatchXY_ok_none hx1
  have hy := yzDispatch_ok_none hyz
  exact ⟨ha1, ha2, hb1, hb2, hy.1, hy.2.1, hy.2.2.1, hy.2.2.2.1,
    hy.2.2.2.2.1, hy.2.2.2.2.2.1, hy.2.2.2.2.2.2.1, hy.2.2.2.2.2.2.2⟩

/-- The state built for a 3D reflective species on an interior patch:
no boundary function is installed anywhere. -/
def stC6 : PartBoundCond :=
  ⟨false, 3, 3, 0, 4, 0, 4, 0, 4, none, none, none, none, none, none⟩

/-- C6 witness: on the concrete interior patch, Ymin keeps no boundary
function. -/
theorem C6_witness : stC6.bc_ymin = none :=
  (C6_bc_installed_only_on_global_boundary prmPer3d spReflectTracked paInner stC6
    (by decide)).2.2.2.2.1 rfl

/-- C10: when the moving window is active or the x EM boundary is
periodic, the constructor takes the x limits straight from the patch
local domain; clamping to the global extent
`[0, cell_length[0]*n_space_global[0]]` happens only with no window and a
non-periodic x EM boundary. -/
theorem C10_moving_window_x_limits (p : Params) (s : Species) (pa : Patch)
    (st : PartBoundCond) (h : mkPartBoundCond p s pa = .ok st) :
    ((p.hasWindow = true ∨ p.EM_BCs 0 0 = "periodic") →
      st.x_min = pa.getDomainLocalMin 0 ∧ st.x_max = pa.getDomainLocalMax 0)
    ∧ (p.hasWindow = false → p.EM_BCs 0 0 ≠ "periodic" →
      st.x_min = max 0 (pa.getDomainLocalMin 0)
      ∧ st.x_max = min (p.cell_length 0 * (p.n_space_global 0 : ℚ))
          (pa.getDomainLocalMax 0)) := by
  obtain ⟨_, hxmin, hxmax, _, _, _⟩ :=
    partBoundCondDispatch_ok_inv (mkPartBoundCond_ok_inv h)
  constructor
  · intro hc
    have hcb : (p.EM_BCs 0 0 == "periodic" || p.hasWindow) = true := by
      rcases hc with hw | hp
      · simp [hw]
      · simp [hp]
    rw [hcb] at hxmin hxmax
    exact ⟨by simpa using hxmin, by simpa using hxmax⟩
  · intro hw hp
    have hcb : (p.EM_BCs 0 0 == "periodic" || p.hasWindow) = false := by
      simp [hw, hp]
    rw [hcb] at hxmin hxmax
    exact ⟨by simpa using hxmin, by simpa using hxmax⟩

/-- The state built for a 1D `remove` species with the moving window on:
x limits are the patch-local bounds. -/
def stC10 : PartBoundCond :=
  ⟨false, 1, 1, 0, 4, 0, 0, 0, 0,
   some .remove_particle, some .remove_particle, none, none, none, none⟩

/-- C10 witness: with the window on and a non-periodic x EM boundary, the
x limits are exactly the patch-local bounds. -/
theorem C10_witness :
    stC10.x_min = paAll.getDomainLocalMin 0
    ∧ stC10.x_max = paAll.getDomainLocalMax 0 :=
  (C10_moving_window_x_limits prmWin1d spRemove paAll stC10 (by decide)).1
    (Or.inl rfl)

/-! The time loop of `main` (Smilei.cpp).

The sequential operations of the studied section of `main` (the
mirror-domain partition setup of lines 268-333 and the PIC loop of lines
337-445) are modelled as an explicit event trace. -/

/-- One operation of the main program, in the order the source performs
them. `mpiBarrier` is an `MPI_Barrier(MPI_COMM_WORLD)` call; `ompBarrier`
is an OpenMP thread barrier. -/
inductive Event where
  | timeUpdate
  | applyCollisions
  | dynamics
  | sumDensities
  | applyAntennas
  | mpiBarrier
  | patchedToCartesian
  | solveMaxwell
  | cartesianToPatches
  | finalizeAndSortParts
  | finalizeSyncAndBcFields
  | runAllDiags
  | movingWindowOperate
  | checkpointDump
  | ompBarrier
  | loadBalance
  | printTimestep
  | consolidateTimers
  | identifyAdditionalPatches
  | identifyMissingPatches
deriving DecidableEq

/-- The loop-control and scheduling parameters read by the time loop:
`timestep`, `n_time` and `time_fields_frozen` from `Params`; the
load-balancing switch and its schedule (`theTimeIsNow`); the printing
schedule; whether this process is the master; and the asynchronously set
`exit_asap` flag as observed at the head of each iteration. -/
structure LoopParams where
  timestep : ℚ
  n_time : Nat
  time_fields_frozen : ℚ
  has_load_balancing : Bool
  lbTimeIsNow : Nat → Bool
  printNow : Nat → Bool
  isMaster : Bool
  exit_asap : Nat → Bool

/-- The body of one iteration of the PIC loop (lines 346-441), as the
sequence of operations in source order: time update, collisions,
dynamics, sum of densities, antennas, the line-383 barrier, then — only
when `time_dual > time_fields_frozen` (line 386) — the mirror-domain
block (barrier, gather, barrier, solve, scatter), then particle
finalize/sort, field sync/BCs, diagnostics, moving window, checkpoint
dump with its thread barrier, the scheduled load balance (lines 421-428),
and the scheduled prints. `time_dual` is the already-incremented dual
time of this iteration. -/
def stepBody (p : LoopParams) (itime : Nat) (time_dual : ℚ) : List Event :=
  [.timeUpdate, .applyCollisions, .dynamics, .sumDensities, .applyAntennas,
   .mpiBarrier]
  ++ (if p.time_fields_frozen < time_dual then
        [.mpiBarrier, .patchedToCartesian, .mpiBarrier, .solveMaxwell,
         .cartesianToPatches]
      else [])
  ++ [.finalizeAndSortParts, .finalizeSyncAndBcFields, .runAllDiags,
      .movingWindowOperate, .checkpointDump, .ompBarrier]
  ++ (if p.has_load_balancing = true ∧ p.lbTimeIsNow itime = true then
        [.loadBalance]
      else [])
  ++ (if p.isMaster = true ∧ p.printNow itime = true then [.printTimestep] else [])
  ++ (if p.printNow itime = true then [.consolidateTimers, .ompBarrier] else [])

/-- The `while ( itime <= n_time && !exit_asap )` loop (lines 344-443),
with explicit fuel. `time_dual` is incremented at the top of each
iteration (line 351) before the body runs. -/
def timeLoopAux (p : LoopParams) : Nat → Nat → ℚ → List Event
  | 0, _, _ => []
  | fuel + 1, itime, time_dual =>
    if itime ≤ p.n_time ∧ p.exit_asap itime = false then
      stepBody p itime (time_dual + p.timestep)
        ++ timeLoopAux p fuel (itime + 1) (time_dual + p.timestep)
    else []

/-- The time loop entered at step `itime` with dual time `time_dual`.
The fuel `n_time + 1 - itime` always reaches the loop-condition exit
first, so this is the plain while loop. -/
def timeLoopFrom (p : LoopParams) (itime : Nat) (time_dual : ℚ) : List Event :=
  timeLoopAux p (p.n_time + 1 - itime) itime time_dual

/-- The portion of `main` from the mirror-domain partition setup to the
end of the time loop: `identify_additional_patches` (line 268),
`identify_missing_patches` (line 301), the line-333 barrier, then the
loop from step `start_step + 1` (line 343). -/
def mainTrace (p : LoopParams) (start_step : Nat) (time_dual0 : ℚ) : List Event :=
  [.identifyAdditionalPatches, .identifyMissingPatches, .mpiBarrier]
  ++ timeLoopFrom p (start_step + 1) time_dual0

/-- Event `a` occurs strictly before event `b` in trace `t`, whenever
both occur. -/
def occursBefore (t : List Event) (a b : Event) : Prop :=
  a ∈ t → b ∈ t → t.indexOf a < t.indexOf b

instance {t : List Event} {a b : Event} : Decidable (occursBefore t a b) := by
  unfold occursBefore
  infer_instance

/-- C5: within an iteration at dual time `td`, each of the three Maxwell
phase operations (gather, solve, scatter) appears exactly once when
`td > time_fields_frozen` and not at all otherwise: the solve phase is
skipped entirely precisely when the current time does not exceed
`time_fields_frozen`. -/
theorem C5_maxwell_skipped_iff_frozen (p : LoopParams) (itime : Nat) (td : ℚ) :
    (stepBody p itime td).count .patchedToCartesian
      = (if p.time_fields_frozen < td then 1 else 0)
    ∧ (stepBody p itime td).count .solveMaxwell
      = (if p.time_fields_frozen < td then 1 else 0)
    ∧ (stepBody p itime td).count .cartesianToPatches
      = (if p.time_fields_frozen < td then 1 else 0) := by
  unfold stepBody
  repeat' split
  all_goals decide

/-- C7: within one step of the loop the pipeline order holds between
every pair of the chain dynamics → sumDensities → Maxwell solve →
finalize_sync_and_bc_fields → runAllDiags → moving-window operate →
load_balance (the conditional members ordered whenever present). -/
theorem C7_step_pipeline_order (p : LoopParams) (itime : Nat) (td : ℚ) :
    occursBefore (stepBody p itime td) .dynamics .sumDensities
    ∧ occursBefore (stepBody p itime td) .dynamics .solveMaxwell
    ∧ occursBefore (stepBody p itime td) .dynamics .finalizeSyncAndBcFields
    ∧ occursBefore (stepBody p itime td) .dynamics .runAllDiags
    ∧ occursBefore (stepBody p itime td) .dynamics .movingWindowOperate
    ∧ occursBefore (stepBody p itime td) .dynamics .loadBalance
    ∧ occursBefore (stepBody p itime td) .sumDensities .solveMaxwell
    ∧ occursBefore (stepBody p itime td) .sumDensities .finalizeSyncAndBcFields
    ∧ occursBefore (stepBody p itime td) .sumDensities .runAllDiags
    ∧ occursBefore (stepBody p itime td) .sumDensities .movingWindowOperate
    ∧ occursBefore (stepBody p itime td) .sumDensities .loadBalance
    ∧ occursBefore (stepBody p itime td) .solveMaxwell .finalizeSyncAndBcFields
    ∧ occursBefore (stepBody p itime td) .solveMaxwell .runAllDiags
    ∧ occursBefore (stepBody p itime td) .solveMaxwell .movingWindowOperate
    ∧ occursBefore (stepBody p itime td) .solveMaxwell .loadBalance
    ∧ occursBefore (stepBody p itime td) .finalizeSyncAndBcFields .runAllDiags
    ∧ occursBefore (stepBody p itime td) .finalizeSyncAndBcFields .movingWindowOperate
    ∧ occursBefore (stepBody p itime td) .finalizeSyncAndBcFields .loadBalance
    ∧ occursBefore (stepBody p itime td) .runAllDiags .movingWindowOperate
    ∧ occursBefore (stepBody p itime td) .runAllDiags .loadBalance
    ∧ occursBefore (stepBody p itime td) .movingWindowOperate .loadBalance := by
  unfold stepBody
  repeat' split
  all_goals decide

/-- Loop parameters with every conditional phase active: frozen time 0,
two steps, load balancing and printing every step, master process. -/
def lpAll : LoopParams :=
  ⟨1, 2, 0, true, fun _ => true, fun _ => true, true, fun _ => false⟩

/-- C7 witness: in the concrete fully-active step, dynamics precedes
sumDensities. -/
theorem C7_witness : occursBefore (stepBody lpAll 1 1) .dynamics .sumDensities :=
  (C7_step_pipeline_order lpAll 1 1).1

/-- C8 counterexample: in a concrete step where the solve runs, the event
after `solveMaxwell` is directly `cartesianToPatches` (no barrier
separates the solve from the scatter) and the event after
`cartesianToPatches` is directly `finalizeAndSortParts` (no barrier after
the mirror-domain block), refuting the claim that a global barrier
separates each consecutive pair of phases and closes the block. -/
theorem C8_counterexample :
    Event.solveMaxwell ∈ stepBody lpAll 1 1
    ∧ (stepBody lpAll 1 1).indexOf Event.cartesianToPatches
      = (stepBody lpAll 1 1).indexOf Event.solveMaxwell + 1
    ∧ (stepBody lpAll 1 1).indexOf Event.finalizeAndSortParts
      = (stepBody lpAll 1 1).indexOf Event.cartesianToPatches + 1 := by
  decide

/-- C8 amended: when the solve runs, the step contains the contiguous
block barrier, barrier, gather, barrier, solve, scatter, particle
finalize: barriers precede the mirror-domain block and separate the
gather from the solve, but nothing separates the solve from the scatter,
and no barrier follows the block. -/
theorem C8_amended_barrier_layout (p : LoopParams) (itime : Nat) (td : ℚ)
    (hf : p.time_fields_frozen < td) :
    ∃ pre post, stepBody p itime td
      = pre ++ [Event.mpiBarrier, Event.mpiBarrier, Event.patchedToCartesian,
          Event.mpiBarrier, Event.solveMaxwell, Event.cartesianToPatches,
          Event.finalizeAndSortParts] ++ post := by
  refine ⟨[.timeUpdate, .applyCollisions, .dynamics, .sumDensities, .applyAntennas],
    [.finalizeSyncAndBcFields, .runAllDiags, .movingWindowOperate,
     .checkpointDump, .ompBarrier]
    ++ (if p.has_load_balancing = true ∧ p.lbTimeIsNow itime = true then
          [.loadBalance] else [])
    ++ (if p.isMaster = true ∧ p.printNow itime = true then [.printTimestep] else [])
    ++ (if p.printNow itime = true then [.consolidateTimers, .ompBarrier] else []),
    ?_⟩
  unfold stepBody
  rw [if_pos hf]
  simp

/-- C8 amended witness: the layout at the concrete fully-active step. -/
theorem C8_amended_witness :
    ∃ pre post, stepBody lpAll 1 1
      = pre ++ [Event.mpiBarrier, Event.mpiBarrier, Event.patchedToCartesian,
          Event.mpiBarrier, Event.solveMaxwell, Event.cartesianToPatches,
          Event.finalizeAndSortParts] ++ post :=
  C8_amended_barrier_layout lpAll 1 1 (by decide)

/-- Neither partition-identification operation occurs anywhere in a loop
step. -/
theorem stepBody_no_identify (p : LoopParams) (itime : Nat) (td : ℚ) :
    (stepBody p itime td).count .identifyAdditionalPatches = 0
    ∧ (stepBody p itime td).count .identifyMissingPatches = 0 := by
  unfold stepBody
  repeat' split
  all_goals decide

/-- Neither partition-identification operation ever occurs inside the
time loop. -/
theorem timeLoopAux_no_identify (p : LoopParams) (fuel itime : Nat) (td : ℚ) :
    (timeLoopAux p fuel itime td).count .identifyAdditionalPatches = 0
    ∧ (timeLoopAux p fuel itime td).count .identifyMissingPatches = 0 := by
  induction fuel generalizing itime td with
  | zero => exact ⟨rfl, rfl⟩
  | succ n ih =>
    unfold timeLoopAux
    split
    · constructor
      · rw [List.count_append, (stepBody_no_identify p itime (td + p.timestep)).1,
          (ih (itime + 1) (td + p.timestep)).1]
      · rw [List.count_append, (stepBody_no_identify p itime (td + p.timestep)).2,
          (ih (itime + 1) (td + p.timestep)).2]
    · exact ⟨rfl, rfl⟩

/-- Loop parameters with load balancing scheduled at step 1 of a 2-step
run and nothing else conditional. -/
def lpLB : LoopParams :=
  ⟨1, 2, 0, true, fun i => i == 1, fun _ => false, true, fun _ => false⟩

/-- C9 counterexample: in a concrete run whose schedule triggers a
load_balance, the trace is the one-time partition setup followed by the
loop; the load_balance occurs inside the loop, yet the
partition-identification operations never occur in the loop at all — so
nothing invalidates or recomputes the partition after the load_balance,
refuting the claim. -/
theorem C9_counterexample :
    mainTrace lpLB 0 0
      = [Event.identifyAdditionalPatches, Event.identifyMissingPatches,
         Event.mpiBarrier] ++ timeLoopFrom lpLB 1 0
    ∧ Event.loadBalance ∈ timeLoopFrom lpLB 1 0
    ∧ (timeLoopFrom lpLB 1 0).count .identifyAdditionalPatches = 0
    ∧ (timeLoopFrom lpLB 1 0).count .identifyMissingPatches = 0 := by
  refine ⟨rfl, ?_, (timeLoopAux_no_identify lpLB _ 1 0).1,
    (timeLoopAux_no_identify lpLB _ 1 0).2⟩
  show Event.loadBalance ∈ timeLoopAux lpLB (1 + 1) 1 0
  rw [timeLoopAux]
  rw [if_pos (by decide : 1 ≤ lpLB.n_time ∧ lpLB.exit_asap 1 = false)]
  simp [stepBody, lpLB, List.mem_append]

/-- C9 amended: the rectangular mirror-domain partition is identified
exactly once, before the time loop starts, and no iteration of the loop
— load-balancing iterations included — ever recomputes it. -/
theorem C9_amended_partition_fixed_before_loop (p : LoopParams)
    (start_step : Nat) (td0 : ℚ) :
    mainTrace p start_step td0
      = [Event.identifyAdditionalPatches, Event.identifyMissingPatches,
         Event.mpiBarrier] ++ timeLoopFrom p (start_step + 1) td0
    ∧ (∀ fuel itime td,
        (timeLoopAux p fuel itime td).count .identifyAdditionalPatches = 0)
    ∧ (∀ fuel itime td,
        (timeLoopAux p fuel itime td).count .identifyMissingPatches = 0) :=
  ⟨rfl, fun fuel itime td => (timeLoopAux_no_identify p fuel itime td).1,
    fun fuel itime td => (timeLoopAux_no_identify p fuel itime td).2⟩

end Smilei
